import Mathlib

/-!
Verification of the photo ingestion and spatial-indexing pipeline of the
track_me repository (src/myphoto/services/photo_processing_service.py and
src/myphoto/models.py).

The embedding below translates the Python source into Lean:
  * EXIF tag values (`ExVal`) cover the shapes the pipeline inspects:
    plain numerics (int/float), 3-element degrees/minutes/seconds tuples,
    text, and an `other` constructor for every other unparseable shape.
    Python floats are modelled as rationals; the DMS arithmetic in the
    source is exact division, so the model is faithful for it.
  * A `Photo` structure mirrors the fields of the Django `Photo` model
    that the pipeline reads or writes; `none` stands for SQL NULL, a
    fresh unsaved instance has empty strings for the non-null char
    fields and `none` everywhere else.
  * The per-file environment (`FileInput`) packages what the filesystem
    provides to one `process_single_photo` call: the relative path, the
    basename and directory the service derives from it, the outcome of
    opening the file for EXIF extraction, and the outcome of the
    perceptual-hash computation (`none` models the absorbed exception of
    `_calculate_perceptual_hash`).
  * The external `h3.latlng_to_cell` library call is a pure function of
    (lat, lon, resolution); it is passed in as an explicit parameter
    `h3fn` so that every definition stays executable.
  * The catalog is a list of `Photo` records keyed by `source_file`,
    with lookup and upsert mirroring `Photo.objects.get` / `photo.save`.
-/

namespace TrackMe

/-- An EXIF tag value, as the GPS-parsing code discriminates them:
a numeric value (Python int/float), a 3-tuple of numerics (DMS),
a text value, or any other shape. -/
inductive ExVal where
  | num : ℚ → ExVal
  | dms : ℚ → ℚ → ℚ → ExVal
  | str : String → ExVal
  | other : ExVal
  deriving DecidableEq

/-- Python truthiness of a tag value: 0 and the empty string are falsy,
a 3-tuple is nonempty hence truthy, other objects are truthy. -/
def ExVal.truthy : ExVal → Bool
  | .num q => q != 0
  | .str s => s != ""
  | .dms _ _ _ => true
  | .other => true

/-- The EXIF dictionary built by `_extract_exif_metadata`: tag name to value. -/
abbrev ExifDict := List (String × ExVal)

/-- Outcome of opening a file and reading its tag block
(`Image.open` + `img.getexif()` inside the try of `_extract_exif_metadata`):
the open/decode raised, the tag block was empty/absent (falsy `exif_data`),
or a truthy tag block that converts to the given dictionary. -/
inductive ExifOutcome where
  | decodeFail : ExifOutcome
  | noTags : ExifOutcome
  | tags : ExifDict → ExifOutcome
  deriving DecidableEq

/-- What the filesystem provides for one file: the path relative to the
ingestion root, the basename and directory derived from it, the EXIF
outcome, and the perceptual-hash outcome (`none` = the `imagehash.phash`
call raised and was absorbed). -/
structure FileInput where
  relative_path : String
  file_name : String
  directory : String
  exif : ExifOutcome
  hashResult : Option String
  deriving DecidableEq

/-- The fields of the `Photo` Django model that the ingestion pipeline
reads or writes. `none` is SQL NULL. -/
structure Photo where
  source_file : String
  file_name : String := ""
  directory : String := ""
  date_time_original_text : Option ExVal := none
  gps_latitude : Option ℚ := none
  gps_longitude : Option ℚ := none
  gps_altitude : Option ℚ := none
  location : Option String := none
  country_code : Option String := none
  geo_coded_at : Option Nat := none
  h3_res_15 : Option String := none
  h3_res_12 : Option String := none
  h3_res_9 : Option String := none
  h3_res_6 : Option String := none
  h3_res_3 : Option String := none
  perceptual_hash : Option String := none
  exif_meta : Option ExifDict := none
  deriving DecidableEq

/-- A fresh in-memory record, `Photo(source_file=relative_path)`. -/
def Photo.new (rp : String) : Photo := { source_file := rp }

/-- Model of `Photo.has_gps`: latitude and longitude both present. -/
def Photo.has_gps (p : Photo) : Bool :=
  p.gps_latitude.isSome && p.gps_longitude.isSome

/-- Model of `Photo.has_h3_indexes`: the source checks only `h3_res_9`. -/
def Photo.has_h3_indexes (p : Photo) : Bool :=
  p.h3_res_9.isSome

/-- Model of `Photo.calculate_h3_indexes`: when both coordinates are present,
set all five H3 fields from the same (lat, lon) pair; otherwise leave
the record unchanged.  `h3fn` models the external pure function
`h3.latlng_to_cell(lat, lon, resolution)`. -/
def Photo.calculate_h3_indexes (h3fn : ℚ → ℚ → Nat → String) (p : Photo) : Photo :=
  match p.gps_latitude, p.gps_longitude with
  | some lat, some lon =>
      { p with
        h3_res_15 := some (h3fn lat lon 15)
        h3_res_12 := some (h3fn lat lon 12)
        h3_res_9 := some (h3fn lat lon 9)
        h3_res_6 := some (h3fn lat lon 6)
        h3_res_3 := some (h3fn lat lon 3) }
  | _, _ => p

/-- Model of `_parse_gps_coordinate`: a numeric is returned as a float unchanged;
a 3-element DMS tuple becomes degrees + minutes/60 + seconds/3600;
any other shape yields `None`. -/
def parse_gps_coordinate : ExVal → Option ℚ
  | .num q => some q
  | .dms d m s => some (d + m / 60 + s / 3600)
  | _ => none

/-- Python truthiness of the `exif_meta` field (`if not photo.exif_meta`):
`None` and the empty dict are falsy. -/
def dictTruthy : Option ExifDict → Bool
  | none => false
  | some d => !d.isEmpty

/-- Model of `_is_fully_processed`: with GPS, requires `has_h3_indexes` and a
perceptual hash; without GPS, requires only the perceptual hash. -/
def is_fully_processed (p : Photo) : Bool :=
  let has_hash := p.perceptual_hash.isSome
  if p.has_gps then p.has_h3_indexes && has_hash else has_hash

/-- Model of `_extract_basic_info`: set file name and directory. -/
def extract_basic_info (p : Photo) (fi : FileInput) : Photo :=
  { p with file_name := fi.file_name, directory := fi.directory }

/-- Model of `_extract_exif_metadata`: on a decode exception set `exif_meta` to the
empty dict; on a falsy (absent/empty) tag block do nothing; on a truthy tag
block store the converted dictionary and take `DateTime`, else
`DateTimeOriginal`, as the original-capture-time text. -/
def extract_exif_metadata (p : Photo) (fi : FileInput) : Photo :=
  match fi.exif with
  | .decodeFail => { p with exif_meta := some [] }
  | .noTags => p
  | .tags d =>
      let p1 := { p with exif_meta := some d }
      match d.lookup "DateTime" with
      | some v => { p1 with date_time_original_text := some v }
      | none =>
          match d.lookup "DateTimeOriginal" with
          | some v => { p1 with date_time_original_text := some v }
          | none => p1

/-- Model of `_extract_gps_coordinates`: return unless `exif_meta` is truthy and
holds a truthy `GPSInfo`; when both `GPSLatitude` and `GPSLongitude` keys
exist and both values parse, commit the pair, and then commit a numeric
`GPSAltitude` if present; in every other case leave the record unchanged. -/
def extract_gps_coordinates (p : Photo) : Photo :=
  if !dictTruthy p.exif_meta then p
  else
    let d := p.exif_meta.getD []
    match d.lookup "GPSInfo" with
    | none => p
    | some gv =>
        if !gv.truthy then p
        else
          match d.lookup "GPSLatitude", d.lookup "GPSLongitude" with
          | some latv, some lonv =>
              match parse_gps_coordinate latv, parse_gps_coordinate lonv with
              | some lat, some lon =>
                  let p1 := { p with gps_latitude := some lat, gps_longitude := some lon }
                  match d.lookup "GPSAltitude" with
                  | some (ExVal.num a) => { p1 with gps_altitude := some a }
                  | _ => p1
              | _, _ => p
          | _, _ => p

/-- Model of `_calculate_h3_indexes` (service layer): call the model method only
when the record has GPS coordinates. -/
def calc_h3_step (h3fn : ℚ → ℚ → Nat → String) (p : Photo) : Photo :=
  if p.has_gps then p.calculate_h3_indexes h3fn else p

/-- Model of `_calculate_perceptual_hash`: store the hash string on success; on an
absorbed exception leave the field untouched. -/
def calculate_perceptual_hash (p : Photo) (fi : FileInput) : Photo :=
  match fi.hashResult with
  | some h => { p with perceptual_hash := some h }
  | none => p

/-- The five extraction steps of `process_single_photo`, in source order:
basic info, EXIF metadata, GPS coordinates, H3 indexes, perceptual hash. -/
def pipelineSteps (h3fn : ℚ → ℚ → Nat → String) (fi : FileInput) (p : Photo) : Photo :=
  calculate_perceptual_hash
    (calc_h3_step h3fn
      (extract_gps_coordinates
        (extract_exif_metadata (extract_basic_info p fi) fi))) fi

/-- The non-skip body of `process_single_photo`: the five pipeline steps in
source order, then the forced-reprocess enrichment reset (clear
`geo_coded_at`, `location`, `country_code` when forcing and the record has
GPS). -/
def processBody (h3fn : ℚ → ℚ → Nat → String) (fi : FileInput)
    (photo : Photo) (force : Bool) : Photo :=
  if force && (pipelineSteps h3fn fi photo).has_gps then
    { pipelineSteps h3fn fi photo with
        geo_coded_at := none, location := none, country_code := none }
  else pipelineSteps h3fn fi photo

/-- The catalog: a list of records, unique on `source_file`. -/
abbrev DB := List Photo

/-- Model of `Photo.objects.get(source_file=relative_path)`. -/
def dbFind (db : DB) (rp : String) : Option Photo :=
  db.find? (fun p => p.source_file == rp)

/-- Model of `photo.save()`: update the record with the same `source_file`, or
append a new one. -/
def dbSave (db : DB) (p : Photo) : DB :=
  if (dbFind db p.source_file).isSome then
    db.map (fun q => if q.source_file == p.source_file then p else q)
  else db ++ [p]

/-- The action reported by `process_single_photo`. -/
inductive Action where
  | created : Action
  | updated : Action
  | skipped : Action
  deriving DecidableEq

/-- The action together with the record, as the returned dict. -/
structure ProcResult where
  action : Action
  photo : Photo
  deriving DecidableEq

/-- Model of `process_single_photo`: look up by relative path; an existing record
that is fully processed is skipped unless forcing; otherwise run the
pipeline body and save, reporting `created` for a new record and
`updated` for an existing one. -/
def process_single_photo (h3fn : ℚ → ℚ → Nat → String) (fi : FileInput)
    (db : DB) (force : Bool) : ProcResult × DB :=
  match dbFind db fi.relative_path with
  | some photo =>
      if !force && is_fully_processed photo then
        (⟨Action.skipped, photo⟩, db)
      else
        (⟨Action.updated, processBody h3fn fi photo force⟩,
          dbSave db (processBody h3fn fi photo force))
  | none =>
      (⟨Action.created, processBody h3fn fi (Photo.new fi.relative_path) force⟩,
        dbSave db (processBody h3fn fi (Photo.new fi.relative_path) force))

/-- The statistics dict of `process_directory`. -/
structure Stats where
  total_files : ℕ
  processed : ℕ
  skipped : ℕ
  updated : ℕ
  created : ℕ
  errors : ℕ
  error_details : List String
  deriving DecidableEq

/-- One iteration of the `process_directory` loop, over the outcome of the
`process_single_photo` call for one file: a returned action updates the
matching counters; an exception is caught, counted, and recorded as an
error description. -/
def stepStats (s : Stats) (f : String × Except String Action) : Stats :=
  match f.2 with
  | .ok Action.skipped => { s with skipped := s.skipped + 1 }
  | .ok Action.created => { s with created := s.created + 1, processed := s.processed + 1 }
  | .ok Action.updated => { s with updated := s.updated + 1, processed := s.processed + 1 }
  | .error e =>
      { s with errors := s.errors + 1,
               error_details := s.error_details ++ ["Error processing " ++ f.1 ++ ": " ++ e] }

/-- Model of `process_directory`: fold the loop body over the discovered files,
each paired with the outcome (normal action or raised exception) of its
`process_single_photo` call, starting from the zeroed statistics with
`total_files` set to the number of discovered files. -/
def process_directory (files : List (String × Except String Action)) : Stats :=
  files.foldl stepStats
    { total_files := files.length, processed := 0, skipped := 0, updated := 0,
      created := 0, errors := 0, error_details := [] }

/-- The `exif_meta` value produced by `_extract_exif_metadata` for a record
whose `exif_meta` was previously NULL. -/
def exifOutcomeDict : ExifOutcome → Option ExifDict
  | .decodeFail => some []
  | .noTags => none
  | .tags d => some d

/-- The latitude/longitude pair that `_extract_gps_coordinates` commits from
a given `exif_meta` value: present exactly when the dict is truthy, holds a
truthy `GPSInfo`, has both coordinate keys, and both values parse. -/
def gps_parsed_pair (em : Option ExifDict) : Option (ℚ × ℚ) :=
  if !dictTruthy em then none
  else
    let d := em.getD []
    match d.lookup "GPSInfo" with
    | none => none
    | some gv =>
        if !gv.truthy then none
        else
          match d.lookup "GPSLatitude", d.lookup "GPSLongitude" with
          | some latv, some lonv =>
              match parse_gps_coordinate latv, parse_gps_coordinate lonv with
              | some lat, some lon => some (lat, lon)
              | _, _ => none
          | _, _ => none

/-- All five spatial-index fields present. -/
def h3AllPresent (p : Photo) : Bool :=
  p.h3_res_15.isSome && p.h3_res_12.isSome && p.h3_res_9.isSome &&
    p.h3_res_6.isSome && p.h3_res_3.isSome

/-- All five spatial-index fields absent. -/
def h3AllAbsent (p : Photo) : Bool :=
  p.h3_res_15.isNone && p.h3_res_12.isNone && p.h3_res_9.isNone &&
    p.h3_res_6.isNone && p.h3_res_3.isNone

/-- The per-file outcome was a normal `created` action. -/
def isCreated : Except String Action → Bool
  | .ok Action.created => true
  | _ => false

/-- The per-file outcome was a normal `updated` action. -/
def isUpdated : Except String Action → Bool
  | .ok Action.updated => true
  | _ => false

/-- The per-file outcome was a normal `skipped` action. -/
def isSkipped : Except String Action → Bool
  | .ok Action.skipped => true
  | _ => false

/-- The per-file outcome was a raised exception. -/
def isErr : Except String Action → Bool
  | .error _ => true
  | .ok _ => false

/-! ### Helper lemmas about the pipeline steps -/

lemma eem_preserves (p : Photo) (fi : FileInput) :
    (extract_exif_metadata p fi).source_file = p.source_file ∧
    (extract_exif_metadata p fi).gps_latitude = p.gps_latitude ∧
    (extract_exif_metadata p fi).gps_longitude = p.gps_longitude ∧
    (extract_exif_metadata p fi).gps_altitude = p.gps_altitude ∧
    (extract_exif_metadata p fi).h3_res_15 = p.h3_res_15 ∧
    (extract_exif_metadata p fi).h3_res_12 = p.h3_res_12 ∧
    (extract_exif_metadata p fi).h3_res_9 = p.h3_res_9 ∧
    (extract_exif_metadata p fi).h3_res_6 = p.h3_res_6 ∧
    (extract_exif_metadata p fi).h3_res_3 = p.h3_res_3 ∧
    (extract_exif_metadata p fi).perceptual_hash = p.perceptual_hash ∧
    (extract_exif_metadata p fi).location = p.location ∧
    (extract_exif_metadata p fi).country_code = p.country_code ∧
    (extract_exif_metadata p fi).geo_coded_at = p.geo_coded_at := by
  unfold extract_exif_metadata
  cases fi.exif <;> (try simp) <;> (repeat' split) <;> (try simp)

lemma eem_exif_meta (p : Photo) (fi : FileInput) :
    (extract_exif_metadata p fi).exif_meta =
      match fi.exif with
      | .decodeFail => some []
      | .noTags => p.exif_meta
      | .tags d => some d := by
  unfold extract_exif_metadata
  cases fi.exif <;> (try simp) <;> (repeat' split) <;> (try simp)

lemma extract_gps_eq (p : Photo) :
    extract_gps_coordinates p =
      match gps_parsed_pair p.exif_meta with
      | none => p
      | some (la, lo) =>
          match (p.exif_meta.getD []).lookup "GPSAltitude" with
          | some (ExVal.num a) =>
              { p with gps_latitude := some la, gps_longitude := some lo,
                       gps_altitude := some a }
          | _ =>
              { p with gps_latitude := some la, gps_longitude := some lo } := by
  unfold extract_gps_coordinates gps_parsed_pair
  cases hd : dictTruthy p.exif_meta <;> simp [hd]
  cases hg : List.lookup "GPSInfo" (p.exif_meta.getD []) with
  | none => simp
  | some gv =>
    simp only []
    cases ht : gv.truthy <;> simp [ht]
    cases hla : List.lookup "GPSLatitude" (p.exif_meta.getD []) with
    | none => cases hlo : List.lookup "GPSLongitude" (p.exif_meta.getD []) <;> simp
    | some latv =>
      cases hlo : List.lookup "GPSLongitude" (p.exif_meta.getD []) with
      | none => simp
      | some lonv =>
        cases hpa : parse_gps_coordinate latv <;>
          cases hpb : parse_gps_coordinate lonv <;> simp [hpa, hpb]

lemma calc_h3_preserves (h3fn : ℚ → ℚ → ℕ → String) (p : Photo) :
    (calc_h3_step h3fn p).source_file = p.source_file ∧
    (calc_h3_step h3fn p).gps_latitude = p.gps_latitude ∧
    (calc_h3_step h3fn p).gps_longitude = p.gps_longitude ∧
    (calc_h3_step h3fn p).gps_altitude = p.gps_altitude ∧
    (calc_h3_step h3fn p).perceptual_hash = p.perceptual_hash ∧
    (calc_h3_step h3fn p).location = p.location ∧
    (calc_h3_step h3fn p).country_code = p.country_code ∧
    (calc_h3_step h3fn p).geo_coded_at = p.geo_coded_at := by
  unfold calc_h3_step Photo.calculate_h3_indexes
  (repeat' split) <;> (try simp)

lemma calc_h3_of_gps (h3fn : ℚ → ℚ → ℕ → String) (p : Photo)
    (h : p.has_gps = true) :
    h3AllPresent (calc_h3_step h3fn p) = true := by
  unfold Photo.has_gps at h
  cases hla : p.gps_latitude with
  | none => simp [hla] at h
  | some la =>
    cases hlo : p.gps_longitude with
    | none => simp [hlo] at h
    | some lo =>
      unfold calc_h3_step Photo.calculate_h3_indexes h3AllPresent
      simp [Photo.has_gps, hla, hlo]

lemma calc_h3_of_no_gps (h3fn : ℚ → ℚ → ℕ → String) (p : Photo)
    (h : p.has_gps = false) :
    calc_h3_step h3fn p = p := by
  unfold calc_h3_step
  simp [h]

lemma cph_preserves (p : Photo) (fi : FileInput) :
    (calculate_perceptual_hash p fi).source_file = p.source_file ∧
    (calculate_perceptual_hash p fi).gps_latitude = p.gps_latitude ∧
    (calculate_perceptual_hash p fi).gps_longitude = p.gps_longitude ∧
    (calculate_perceptual_hash p fi).gps_altitude = p.gps_altitude ∧
    (calculate_perceptual_hash p fi).h3_res_15 = p.h3_res_15 ∧
    (calculate_perceptual_hash p fi).h3_res_12 = p.h3_res_12 ∧
    (calculate_perceptual_hash p fi).h3_res_9 = p.h3_res_9 ∧
    (calculate_perceptual_hash p fi).h3_res_6 = p.h3_res_6 ∧
    (calculate_perceptual_hash p fi).h3_res_3 = p.h3_res_3 ∧
    (calculate_perceptual_hash p fi).location = p.location ∧
    (calculate_perceptual_hash p fi).country_code = p.country_code ∧
    (calculate_perceptual_hash p fi).geo_coded_at = p.geo_coded_at := by
  unfold calculate_perceptual_hash
  cases fi.hashResult <;> simp

lemma cph_hash (p : Photo) (fi : FileInput) :
    (calculate_perceptual_hash p fi).perceptual_hash =
      match fi.hashResult with
      | some h => some h
      | none => p.perceptual_hash := by
  unfold calculate_perceptual_hash
  cases fi.hashResult <;> simp

lemma egc_preserves (p : Photo) :
    (extract_gps_coordinates p).source_file = p.source_file ∧
    (extract_gps_coordinates p).file_name = p.file_name ∧
    (extract_gps_coordinates p).directory = p.directory ∧
    (extract_gps_coordinates p).date_time_original_text = p.date_time_original_text ∧
    (extract_gps_coordinates p).h3_res_15 = p.h3_res_15 ∧
    (extract_gps_coordinates p).h3_res_12 = p.h3_res_12 ∧
    (extract_gps_coordinates p).h3_res_9 = p.h3_res_9 ∧
    (extract_gps_coordinates p).h3_res_6 = p.h3_res_6 ∧
    (extract_gps_coordinates p).h3_res_3 = p.h3_res_3 ∧
    (extract_gps_coordinates p).perceptual_hash = p.perceptual_hash ∧
    (extract_gps_coordinates p).location = p.location ∧
    (extract_gps_coordinates p).country_code = p.country_code ∧
    (extract_gps_coordinates p).geo_coded_at = p.geo_coded_at ∧
    (extract_gps_coordinates p).exif_meta = p.exif_meta := by
  rw [extract_gps_eq]
  (repeat' split) <;> simp

lemma egc_gps (p : Photo) :
    (extract_gps_coordinates p).gps_latitude =
      (match gps_parsed_pair p.exif_meta with
       | some q => some q.1
       | none => p.gps_latitude) ∧
    (extract_gps_coordinates p).gps_longitude =
      (match gps_parsed_pair p.exif_meta with
       | some q => some q.2
       | none => p.gps_longitude) := by
  rw [extract_gps_eq]
  (repeat' split) <;> simp_all

lemma calc_h3_good (h3fn : ℚ → ℚ → ℕ → String) (p : Photo) :
    (calc_h3_step h3fn p).has_gps = true →
      (calc_h3_step h3fn p).h3_res_9.isSome = true := by
  intro h
  cases hg : p.has_gps with
  | false => rw [calc_h3_of_no_gps h3fn p hg, hg] at h; cases h
  | true =>
    have hall := calc_h3_of_gps h3fn p hg
    unfold h3AllPresent at hall
    simp only [Bool.and_eq_true] at hall
    exact hall.1.1.2

lemma pipeline_preserves (h3fn : ℚ → ℚ → ℕ → String) (fi : FileInput) (p : Photo) :
    (pipelineSteps h3fn fi p).source_file = p.source_file ∧
    (pipelineSteps h3fn fi p).location = p.location ∧
    (pipelineSteps h3fn fi p).country_code = p.country_code ∧
    (pipelineSteps h3fn fi p).geo_coded_at = p.geo_coded_at := by
  unfold pipelineSteps
  obtain ⟨b1, -, -, -, -, -, -, -, -, -, b2, b3, b4⟩ :=
    eem_preserves (extract_basic_info p fi) fi
  obtain ⟨c1, -, -, -, -, -, -, -, -, -, c2, c3, c4, -⟩ :=
    egc_preserves (extract_exif_metadata (extract_basic_info p fi) fi)
  obtain ⟨d1, -, -, -, -, d2, d3, d4⟩ :=
    calc_h3_preserves h3fn
      (extract_gps_coordinates (extract_exif_metadata (extract_basic_info p fi) fi))
  obtain ⟨e1, -, -, -, -, -, -, -, -, e2, e3, e4⟩ :=
    cph_preserves
      (calc_h3_step h3fn
        (extract_gps_coordinates (extract_exif_metadata (extract_basic_info p fi) fi))) fi
  refine ⟨?_, ?_, ?_, ?_⟩
  · rw [e1, d1, c1, b1]; simp [extract_basic_info]
  · rw [e2, d2, c2, b2]; simp [extract_basic_info]
  · rw [e3, d3, c3, b3]; simp [extract_basic_info]
  · rw [e4, d4, c4, b4]; simp [extract_basic_info]

lemma pipeline_hash (h3fn : ℚ → ℚ → ℕ → String) (fi : FileInput) (p : Photo)
    (h : String) (hs : fi.hashResult = some h) :
    (pipelineSteps h3fn fi p).perceptual_hash = some h := by
  unfold pipelineSteps
  rw [cph_hash, hs]

lemma pipeline_good (h3fn : ℚ → ℚ → ℕ → String) (fi : FileInput) (p : Photo) :
    (pipelineSteps h3fn fi p).has_gps = true →
      (pipelineSteps h3fn fi p).h3_res_9.isSome = true := by
  unfold pipelineSteps
  obtain ⟨-, e2, e3, -, -, -, e9, -⟩ :=
    cph_preserves
      (calc_h3_step h3fn
        (extract_gps_coordinates (extract_exif_metadata (extract_basic_info p fi) fi))) fi
  intro hgps
  rw [e9]
  apply calc_h3_good
  unfold Photo.has_gps at hgps ⊢
  rw [e2, e3] at hgps
  exact hgps

lemma processBody_fully (h3fn : ℚ → ℚ → ℕ → String) (fi : FileInput) (p : Photo)
    (force : Bool) (hh : fi.hashResult.isSome = true) :
    is_fully_processed (processBody h3fn fi p force) = true := by
  obtain ⟨h, hs⟩ := Option.isSome_iff_exists.mp hh
  unfold processBody
  have hhash := pipeline_hash h3fn fi p h hs
  have hgood := pipeline_good h3fn fi p
  set p5 := pipelineSteps h3fn fi p with hp5
  split
  · unfold is_fully_processed Photo.has_gps Photo.has_h3_indexes
    simp only []
    cases hgl : p5.gps_latitude <;> cases hglo : p5.gps_longitude <;>
      simp [hhash, hgl, hglo] <;>
      (apply hgood; unfold Photo.has_gps; rw [hgl, hglo]; rfl)
  · unfold is_fully_processed Photo.has_gps Photo.has_h3_indexes
    cases hgl : p5.gps_latitude <;> cases hglo : p5.gps_longitude <;>
      simp [hhash, hgl, hglo] <;>
      (apply hgood; unfold Photo.has_gps; rw [hgl, hglo]; rfl)

lemma processBody_source_file (h3fn : ℚ → ℚ → ℕ → String) (fi : FileInput)
    (p : Photo) (force : Bool) :
    (processBody h3fn fi p force).source_file = p.source_file := by
  unfold processBody
  obtain ⟨s1, -, -, -⟩ := pipeline_preserves h3fn fi p
  split <;> simp [s1]

lemma processBody_enrichment (h3fn : ℚ → ℚ → ℕ → String) (fi : FileInput)
    (p : Photo) (force : Bool) :
    (processBody h3fn fi p force).location =
      (if force && (processBody h3fn fi p force).has_gps then none else p.location) ∧
    (processBody h3fn fi p force).country_code =
      (if force && (processBody h3fn fi p force).has_gps then none else p.country_code) ∧
    (processBody h3fn fi p force).geo_coded_at =
      (if force && (processBody h3fn fi p force).has_gps then none else p.geo_coded_at) := by
  obtain ⟨-, l2, l3, l4⟩ := pipeline_preserves h3fn fi p
  unfold processBody
  split
  · next hcond =>
      simp only [Photo.has_gps] at hcond ⊢
      simp [hcond]
  · next hcond =>
      simp only [Photo.has_gps] at hcond ⊢
      simp only [Bool.not_eq_true] at hcond
      simp [hcond, l2, l3, l4]

lemma processBody_h3_gps_eq (h3fn : ℚ → ℚ → ℕ → String) (fi : FileInput)
    (p : Photo) (force : Bool) :
    (processBody h3fn fi p force).h3_res_15 = (pipelineSteps h3fn fi p).h3_res_15 ∧
    (processBody h3fn fi p force).h3_res_12 = (pipelineSteps h3fn fi p).h3_res_12 ∧
    (processBody h3fn fi p force).h3_res_9 = (pipelineSteps h3fn fi p).h3_res_9 ∧
    (processBody h3fn fi p force).h3_res_6 = (pipelineSteps h3fn fi p).h3_res_6 ∧
    (processBody h3fn fi p force).h3_res_3 = (pipelineSteps h3fn fi p).h3_res_3 ∧
    (processBody h3fn fi p force).gps_latitude = (pipelineSteps h3fn fi p).gps_latitude ∧
    (processBody h3fn fi p force).gps_longitude = (pipelineSteps h3fn fi p).gps_longitude := by
  unfold processBody
  split <;> simp

lemma pipeline_h3_eq (h3fn : ℚ → ℚ → ℕ → String) (fi : FileInput) (p : Photo) :
    (pipelineSteps h3fn fi p).h3_res_15 =
      (calc_h3_step h3fn
        (extract_gps_coordinates (extract_exif_metadata (extract_basic_info p fi) fi))).h3_res_15 ∧
    (pipelineSteps h3fn fi p).h3_res_12 =
      (calc_h3_step h3fn
        (extract_gps_coordinates (extract_exif_metadata (extract_basic_info p fi) fi))).h3_res_12 ∧
    (pipelineSteps h3fn fi p).h3_res_9 =
      (calc_h3_step h3fn
        (extract_gps_coordinates (extract_exif_metadata (extract_basic_info p fi) fi))).h3_res_9 ∧
    (pipelineSteps h3fn fi p).h3_res_6 =
      (calc_h3_step h3fn
        (extract_gps_coordinates (extract_exif_metadata (extract_basic_info p fi) fi))).h3_res_6 ∧
    (pipelineSteps h3fn fi p).h3_res_3 =
      (calc_h3_step h3fn
        (extract_gps_coordinates (extract_exif_metadata (extract_basic_info p fi) fi))).h3_res_3 := by
  unfold pipelineSteps
  obtain ⟨-, -, -, -, e5, e6, e7, e8, e9, -, -, -⟩ :=
    cph_preserves
      (calc_h3_step h3fn
        (extract_gps_coordinates (extract_exif_metadata (extract_basic_info p fi) fi))) fi
  exact ⟨e5, e6, e7, e8, e9⟩

/-! ### Helper lemmas about the batch statistics loop -/

lemma stepStats_fields (s : Stats) (f : String × Except String Action) :
    (stepStats s f).total_files = s.total_files ∧
    (stepStats s f).created = s.created + (if isCreated f.2 then 1 else 0) ∧
    (stepStats s f).updated = s.updated + (if isUpdated f.2 then 1 else 0) ∧
    (stepStats s f).skipped = s.skipped + (if isSkipped f.2 then 1 else 0) ∧
    (stepStats s f).errors = s.errors + (if isErr f.2 then 1 else 0) ∧
    (stepStats s f).processed =
      s.processed + (if isCreated f.2 then 1 else 0) + (if isUpdated f.2 then 1 else 0) ∧
    (stepStats s f).error_details.length =
      s.error_details.length + (if isErr f.2 then 1 else 0) := by
  rcases f with ⟨path, r⟩
  cases r with
  | error e => simp [stepStats, isCreated, isUpdated, isSkipped, isErr]
  | ok a => cases a <;> simp [stepStats, isCreated, isUpdated, isSkipped, isErr]

lemma foldl_stepStats (files : List (String × Except String Action)) :
    ∀ s : Stats,
      (files.foldl stepStats s).total_files = s.total_files ∧
      (files.foldl stepStats s).created =
        s.created + files.countP (fun f => isCreated f.2) ∧
      (files.foldl stepStats s).updated =
        s.updated + files.countP (fun f => isUpdated f.2) ∧
      (files.foldl stepStats s).skipped =
        s.skipped + files.countP (fun f => isSkipped f.2) ∧
      (files.foldl stepStats s).errors =
        s.errors + files.countP (fun f => isErr f.2) ∧
      (files.foldl stepStats s).processed =
        s.processed + files.countP (fun f => isCreated f.2) +
          files.countP (fun f => isUpdated f.2) ∧
      (files.foldl stepStats s).error_details.length =
        s.error_details.length + files.countP (fun f => isErr f.2) := by
  induction files with
  | nil => intro s; simp
  | cons f fs ih =>
    intro s
    obtain ⟨i1, i2, i3, i4, i5, i6, i7⟩ := ih (stepStats s f)
    obtain ⟨t1, t2, t3, t4, t5, t6, t7⟩ := stepStats_fields s f
    simp only [List.foldl_cons, List.countP_cons]
    refine ⟨by rw [i1, t1], ?_, ?_, ?_, ?_, ?_, ?_⟩
    · rw [i2, t2]; cases isCreated f.2 <;> simp <;> omega
    · rw [i3, t3]; cases isUpdated f.2 <;> simp <;> omega
    · rw [i4, t4]; cases isSkipped f.2 <;> simp <;> omega
    · rw [i5, t5]; cases isErr f.2 <;> simp <;> omega
    · rw [i6, t6]; cases isCreated f.2 <;> cases isUpdated f.2 <;> simp <;> omega
    · rw [i7, t7]; cases isErr f.2 <;> simp <;> omega

lemma countP_partition (files : List (String × Except String Action)) :
    files.countP (fun f => isCreated f.2) + files.countP (fun f => isUpdated f.2) +
        files.countP (fun f => isSkipped f.2) + files.countP (fun f => isErr f.2) =
      files.length := by
  induction files with
  | nil => simp
  | cons f fs ih =>
    rcases f with ⟨path, r⟩
    cases r with
    | error e =>
        simp [List.countP_cons, isCreated, isUpdated, isSkipped, isErr] at ih ⊢
        omega
    | ok a =>
        cases a <;>
          (simp [List.countP_cons, isCreated, isUpdated, isSkipped, isErr] at ih ⊢; omega)

lemma psp_new (h3fn : ℚ → ℚ → ℕ → String) (fi : FileInput) (db : DB) (force : Bool)
    (hf : dbFind db fi.relative_path = none) :
    process_single_photo h3fn fi db force =
      (⟨Action.created, processBody h3fn fi (Photo.new fi.relative_path) force⟩,
        dbSave db (processBody h3fn fi (Photo.new fi.relative_path) force)) := by
  unfold process_single_photo
  rw [hf]

lemma psp_found_skip (h3fn : ℚ → ℚ → ℕ → String) (fi : FileInput) (db : DB)
    (force : Bool) (photo : Photo)
    (hf : dbFind db fi.relative_path = some photo)
    (hq : (!force && is_fully_processed photo) = true) :
    process_single_photo h3fn fi db force = (⟨Action.skipped, photo⟩, db) := by
  unfold process_single_photo
  rw [hf]
  simp [hq]

lemma psp_found_go (h3fn : ℚ → ℚ → ℕ → String) (fi : FileInput) (db : DB)
    (force : Bool) (photo : Photo)
    (hf : dbFind db fi.relative_path = some photo)
    (hq : (!force && is_fully_processed photo) = false) :
    process_single_photo h3fn fi db force =
      (⟨Action.updated, processBody h3fn fi photo force⟩,
        dbSave db (processBody h3fn fi photo force)) := by
  unfold process_single_photo
  rw [hf]
  simp [hq]

lemma processBody_new_h3 (h3fn : ℚ → ℚ → ℕ → String) (fi : FileInput) (rp : String)
    (force : Bool) :
    (h3AllPresent (processBody h3fn fi (Photo.new rp) force) ||
        h3AllAbsent (processBody h3fn fi (Photo.new rp) force)) = true ∧
    h3AllPresent (processBody h3fn fi (Photo.new rp) force) =
      (gps_parsed_pair (exifOutcomeDict fi.exif)).isSome := by
  have hmeta : (extract_exif_metadata (extract_basic_info (Photo.new rp) fi) fi).exif_meta
      = exifOutcomeDict fi.exif := by
    rw [eem_exif_meta]
    cases fi.exif <;> rfl
  obtain ⟨b5, b6, b7, b8, b9, -, -⟩ := processBody_h3_gps_eq h3fn fi (Photo.new rp) force
  obtain ⟨q5, q6, q7, q8, q9⟩ := pipeline_h3_eq h3fn fi (Photo.new rp)
  obtain ⟨-, -, -, -, g5, g6, g7, g8, g9, -, -, -, -, -⟩ :=
    egc_preserves (extract_exif_metadata (extract_basic_info (Photo.new rp) fi) fi)
  obtain ⟨-, hl2, hl3, -, f5, f6, f7, f8, f9, -, -, -, -⟩ :=
    eem_preserves (extract_basic_info (Photo.new rp) fi) fi
  obtain ⟨hg1, hg2⟩ :=
    egc_gps (extract_exif_metadata (extract_basic_info (Photo.new rp) fi) fi)
  rw [hmeta] at hg1 hg2
  cases hpair : gps_parsed_pair (exifOutcomeDict fi.exif) with
  | none =>
      rw [hpair] at hg1 hg2
      have hn2 : (extract_exif_metadata
          (extract_basic_info (Photo.new rp) fi) fi).gps_latitude = none := by
        rw [hl2]; rfl
      have hn3 : (extract_exif_metadata
          (extract_basic_info (Photo.new rp) fi) fi).gps_longitude = none := by
        rw [hl3]; rfl
      have hgps3 : (extract_gps_coordinates
          (extract_exif_metadata (extract_basic_info (Photo.new rp) fi) fi)).has_gps
            = false := by
        unfold Photo.has_gps
        rw [hg1, hg2]
        simp [hn2, hn3]
      have hc := calc_h3_of_no_gps h3fn _ hgps3
      have h15 : (processBody h3fn fi (Photo.new rp) force).h3_res_15 = none := by
        rw [b5, q5, hc, g5, f5]; rfl
      have h12 : (processBody h3fn fi (Photo.new rp) force).h3_res_12 = none := by
        rw [b6, q6, hc, g6, f6]; rfl
      have h9 : (processBody h3fn fi (Photo.new rp) force).h3_res_9 = none := by
        rw [b7, q7, hc, g7, f7]; rfl
      have h6 : (processBody h3fn fi (Photo.new rp) force).h3_res_6 = none := by
        rw [b8, q8, hc, g8, f8]; rfl
      have h3 : (processBody h3fn fi (Photo.new rp) force).h3_res_3 = none := by
        rw [b9, q9, hc, g9, f9]; rfl
      constructor
      · simp [h3AllPresent, h3AllAbsent, h15, h12, h9, h6, h3]
      · simp [h3AllPresent, h15]
  | some pr =>
      rw [hpair] at hg1 hg2
      have hgps3 : (extract_gps_coordinates
          (extract_exif_metadata (extract_basic_info (Photo.new rp) fi) fi)).has_gps
            = true := by
        unfold Photo.has_gps
        rw [hg1, hg2]
        simp
      have hall := calc_h3_of_gps h3fn _ hgps3
      have hp : h3AllPresent (processBody h3fn fi (Photo.new rp) force) = true := by
        unfold h3AllPresent at hall ⊢
        rw [b5, b6, b7, b8, b9, q5, q6, q7, q8, q9]
        exact hall
      constructor
      · rw [hp]; rfl
      · rw [hp]; rfl

/-! ### Claim theorems -/

/-- Claim C1, counterexample: a record that has coordinates, a fingerprint
and the resolution-9 index but is missing the resolution-15 spatial-index
field is nevertheless judged fully processed by the skip predicate, contrary
to the claim that missing any one of the five fields prevents it. -/
theorem c1_counterexample :
    (let p : Photo := { source_file := "img.jpg", gps_latitude := some 1,
                        gps_longitude := some 2, h3_res_9 := some "r9cell",
                        perceptual_hash := some "aaaaaaaaaaaaaaaa" }
     p.has_gps = true ∧ p.h3_res_15 = none ∧ is_fully_processed p = true) := by
  decide

/-- Claim C1 as amended: the skip predicate holds iff the record has a
fingerprint and, when it has coordinates, the resolution-9 spatial-index
field; the other four index fields are not consulted.  A record with a
fingerprint and no coordinates is fully processed. -/
theorem c1_skip_criterion (p : Photo) :
    is_fully_processed p =
      (p.perceptual_hash.isSome && (!p.has_gps || p.h3_res_9.isSome)) := by
  unfold is_fully_processed Photo.has_h3_indexes
  cases hg : p.has_gps <;> simp [hg, Bool.and_comm]

/-- Claim C6: the coordinate normalizer returns a plain numeric unchanged,
converts a 3-element DMS structure by degrees + minutes/60 + seconds/3600
with the sign taken as given, and returns absence for any other shape. -/
theorem c6_coordinate_normalizer (q d m s : ℚ) (t : String) :
    parse_gps_coordinate (ExVal.num q) = some q ∧
    parse_gps_coordinate (ExVal.dms d m s) = some (d + m / 60 + s / 3600) ∧
    parse_gps_coordinate (ExVal.str t) = none ∧
    parse_gps_coordinate ExVal.other = none :=
  ⟨rfl, rfl, rfl, rfl⟩

/-- Claim C8, counterexample: when the image decodes but has no tag block,
the extractor does not set the metadata mapping to an empty mapping — it
leaves it untouched: a pre-existing nonempty mapping survives, and on a
fresh record the field stays absent rather than becoming an empty mapping. -/
theorem c8_counterexample :
    (let fi : FileInput := { relative_path := "img.jpg", file_name := "img.jpg",
                             directory := "", exif := ExifOutcome.noTags,
                             hashResult := none }
     (extract_exif_metadata
        { source_file := "img.jpg", exif_meta := some [("Make", ExVal.str "Canon")] }
        fi).exif_meta = some [("Make", ExVal.str "Canon")] ∧
     (extract_exif_metadata (Photo.new "img.jpg") fi).exif_meta = none ∧
     (extract_exif_metadata (Photo.new "img.jpg") fi).exif_meta ≠ some []) := by
  decide

/-- Claim C8 as amended: the extractor always returns normally; when the
file cannot be decoded it sets the metadata mapping to the empty mapping,
but when the file decodes with no (or an empty) tag block it leaves the
mapping unchanged (absent for a new record); a truthy tag block is stored
as extracted. -/
theorem c8_exif_failure_handling (p : Photo) (rp fn dir : String)
    (hr : Option String) (d : ExifDict) :
    (extract_exif_metadata p ⟨rp, fn, dir, ExifOutcome.decodeFail, hr⟩).exif_meta =
      some [] ∧
    (extract_exif_metadata p ⟨rp, fn, dir, ExifOutcome.noTags, hr⟩).exif_meta =
      p.exif_meta ∧
    (extract_exif_metadata p ⟨rp, fn, dir, ExifOutcome.tags d, hr⟩).exif_meta =
      some d := by
  refine ⟨rfl, rfl, ?_⟩
  rw [eem_exif_meta]

/-- Claim C9: the batch loop absorbs every per-file exception: it always
returns a complete statistics record in which the error counter equals the
number of files whose processing raised, each such file contributes exactly
one entry to the error-details list, and every file of the directory —
including those after a failing one — is still accounted for in the
action counters. -/
theorem c9_batch_error_resilience (files : List (String × Except String Action)) :
    (process_directory files).total_files = files.length ∧
    (process_directory files).errors = files.countP (fun f => isErr f.2) ∧
    (process_directory files).error_details.length = (process_directory files).errors ∧
    (process_directory files).created = files.countP (fun f => isCreated f.2) ∧
    (process_directory files).updated = files.countP (fun f => isUpdated f.2) ∧
    (process_directory files).skipped = files.countP (fun f => isSkipped f.2) := by
  obtain ⟨t1, t2, t3, t4, t5, t6, t7⟩ :=
    foldl_stepStats files
      { total_files := files.length, processed := 0, skipped := 0, updated := 0,
        created := 0, errors := 0, error_details := [] }
  simp at t1 t2 t3 t4 t5 t6 t7
  unfold process_directory
  exact ⟨t1, t5, by rw [t7, t5], t2, t3, t4⟩

/-- Claim C10: the statistics returned by the batch loop satisfy the
accounting identities: created + updated + skipped + errors = total_files,
processed = created + updated, and the error-details list has exactly
`errors` entries. -/
theorem c10_stats_accounting (files : List (String × Except String Action)) :
    (process_directory files).created + (process_directory files).updated +
        (process_directory files).skipped + (process_directory files).errors =
      (process_directory files).total_files ∧
    (process_directory files).processed =
      (process_directory files).created + (process_directory files).updated ∧
    (process_directory files).error_details.length = (process_directory files).errors := by
  obtain ⟨t1, t2, t3, t4, t5, t6, t7⟩ :=
    foldl_stepStats files
      { total_files := files.length, processed := 0, skipped := 0, updated := 0,
        created := 0, errors := 0, error_details := [] }
  simp at t1 t2 t3 t4 t5 t6 t7
  have hpart := countP_partition files
  unfold process_directory
  refine ⟨?_, ?_, ?_⟩
  · rw [t1, t2, t3, t4, t5]; omega
  · rw [t6, t2, t3]
  · rw [t7, t5]

/-- Claim C4: after `process_single_photo`, the three enrichment fields
(location, country code, enrichment timestamp) are cleared exactly when
reprocessing was forced and the resulting record has coordinates; in every
other case — not forced, no coordinates, or the skip path — they keep the
value the stored record (or the fresh shell) had before the call. -/
theorem c4_enrichment_invalidation (h3fn : ℚ → ℚ → ℕ → String) (fi : FileInput)
    (db : DB) (force : Bool) :
    (process_single_photo h3fn fi db force).1.photo.location =
      (if force && (process_single_photo h3fn fi db force).1.photo.has_gps then none
       else ((dbFind db fi.relative_path).getD (Photo.new fi.relative_path)).location) ∧
    (process_single_photo h3fn fi db force).1.photo.country_code =
      (if force && (process_single_photo h3fn fi db force).1.photo.has_gps then none
       else ((dbFind db fi.relative_path).getD (Photo.new fi.relative_path)).country_code) ∧
    (process_single_photo h3fn fi db force).1.photo.geo_coded_at =
      (if force && (process_single_photo h3fn fi db force).1.photo.has_gps then none
       else ((dbFind db fi.relative_path).getD (Photo.new fi.relative_path)).geo_coded_at) := by
  cases hf : dbFind db fi.relative_path with
  | none =>
      rw [psp_new h3fn fi db force hf]
      obtain ⟨m1, m2, m3⟩ :=
        processBody_enrichment h3fn fi (Photo.new fi.relative_path) force
      exact ⟨m1, m2, m3⟩
  | some photo =>
      cases hq : (!force && is_fully_processed photo) with
      | true =>
          rw [psp_found_skip h3fn fi db force photo hf hq]
          have hforce : force = false := by
            cases force with
            | false => rfl
            | true => simp at hq
          subst hforce
          simp
      | false =>
          rw [psp_found_go h3fn fi db force photo hf hq]
          obtain ⟨m1, m2, m3⟩ := processBody_enrichment h3fn fi photo force
          exact ⟨m1, m2, m3⟩

/-- Claim C2, counterexample: for a file whose image cannot be decoded
(EXIF decode fails and the fingerprint computation raises), the record is
saved without a fingerprint, so the second ingestion of the unchanged file
is not skipped — it reprocesses and reports `updated`. -/
theorem c2_counterexample :
    (let fi : FileInput := { relative_path := "img.jpg", file_name := "img.jpg",
                             directory := "", exif := ExifOutcome.decodeFail,
                             hashResult := none }
     (process_single_photo (fun _ _ _ => "cell") fi [] false).1.action =
       Action.created ∧
     (process_single_photo (fun _ _ _ => "cell") fi
        (process_single_photo (fun _ _ _ => "cell") fi [] false).2 false).1.action =
       Action.updated) := by
  decide

/-- Claim C2 as amended: for every file whose fingerprint computation
succeeds, ingesting it twice into an empty catalog with
`force_reprocess = False` yields `created` then `skipped`, the second call
returns the very record stored by the first, and the catalog is unchanged
by the second call. -/
theorem c2_idempotent_reingestion (h3fn : ℚ → ℚ → ℕ → String) (fi : FileInput)
    (hh : fi.hashResult.isSome = true) :
    (process_single_photo h3fn fi [] false).1.action = Action.created ∧
    (process_single_photo h3fn fi
        (process_single_photo h3fn fi [] false).2 false).1.action = Action.skipped ∧
    (process_single_photo h3fn fi
        (process_single_photo h3fn fi [] false).2 false).1.photo =
      (process_single_photo h3fn fi [] false).1.photo ∧
    (process_single_photo h3fn fi
        (process_single_photo h3fn fi [] false).2 false).2 =
      (process_single_photo h3fn fi [] false).2 := by
  have hsf : (processBody h3fn fi (Photo.new fi.relative_path) false).source_file =
      fi.relative_path :=
    processBody_source_file h3fn fi (Photo.new fi.relative_path) false
  have hfull := processBody_fully h3fn fi (Photo.new fi.relative_path) false hh
  have h1 : process_single_photo h3fn fi [] false =
      (⟨Action.created, processBody h3fn fi (Photo.new fi.relative_path) false⟩,
        [processBody h3fn fi (Photo.new fi.relative_path) false]) := by
    unfold process_single_photo dbSave dbFind
    simp
  have h2 : process_single_photo h3fn fi
        [processBody h3fn fi (Photo.new fi.relative_path) false] false =
      (⟨Action.skipped, processBody h3fn fi (Photo.new fi.relative_path) false⟩,
        [processBody h3fn fi (Photo.new fi.relative_path) false]) := by
    have hfind : dbFind [processBody h3fn fi (Photo.new fi.relative_path) false]
        fi.relative_path =
          some (processBody h3fn fi (Photo.new fi.relative_path) false) := by
      unfold dbFind
      simp [List.find?, hsf]
    unfold process_single_photo
    rw [hfind]
    simp [hfull]
  rw [h1, h2]
  simp

/-- Witness for `c2_idempotent_reingestion` at a concrete file whose
fingerprint computation succeeds. -/
theorem c2_idempotent_reingestion_witness :
    (let h3fn : ℚ → ℚ → ℕ → String := fun _ _ _ => "cell"
     let fi : FileInput := { relative_path := "a.jpg", file_name := "a.jpg",
                             directory := "", exif := ExifOutcome.noTags,
                             hashResult := some "ffffffffffffffff" }
     fi.hashResult.isSome = true ∧
     ((process_single_photo h3fn fi [] false).1.action = Action.created ∧
      (process_single_photo h3fn fi
          (process_single_photo h3fn fi [] false).2 false).1.action = Action.skipped ∧
      (process_single_photo h3fn fi
          (process_single_photo h3fn fi [] false).2 false).1.photo =
        (process_single_photo h3fn fi [] false).1.photo ∧
      (process_single_photo h3fn fi
          (process_single_photo h3fn fi [] false).2 false).2 =
        (process_single_photo h3fn fi [] false).2)) :=
  ⟨rfl,
    c2_idempotent_reingestion (fun _ _ _ => "cell")
      { relative_path := "a.jpg", file_name := "a.jpg", directory := "",
        exif := ExifOutcome.noTags, hashResult := some "ffffffffffffffff" } rfl⟩

/-- Claim C3, counterexample: reprocessing an existing record that carries
coordinates from an earlier run, on a file whose metadata now contains no
GPS data at all, leaves all five spatial-index fields populated even though
neither latitude nor longitude was parsed from the metadata in this run. -/
theorem c3_counterexample :
    (let p0 : Photo := { source_file := "a.jpg", gps_latitude := some 1,
                         gps_longitude := some 2, h3_res_15 := some "o15",
                         h3_res_12 := some "o12", h3_res_9 := some "o9",
                         h3_res_6 := some "o6", h3_res_3 := some "o3",
                         perceptual_hash := some "ph" }
     let fi : FileInput := { relative_path := "a.jpg", file_name := "a.jpg",
                             directory := "", exif := ExifOutcome.noTags,
                             hashResult := some "ph" }
     gps_parsed_pair (exifOutcomeDict fi.exif) = none ∧
     h3AllPresent (process_single_photo (fun _ _ _ => "cell") fi [p0] true).1.photo =
       true) := by
  decide

/-- Claim C3 as amended: for a record newly created for its file, the five
spatial-index fields after processing are populated exactly when both
latitude and longitude were successfully parsed from this run's metadata,
and they are always all present or all absent together. (For a
pre-existing record the fields instead follow the coordinates stored on
the record after extraction, which may survive from an earlier run.) -/
theorem c3_spatial_index_completeness (h3fn : ℚ → ℚ → ℕ → String) (fi : FileInput)
    (force : Bool) :
    (h3AllPresent (process_single_photo h3fn fi [] force).1.photo ||
        h3AllAbsent (process_single_photo h3fn fi [] force).1.photo) = true ∧
    h3AllPresent (process_single_photo h3fn fi [] force).1.photo =
      (gps_parsed_pair (exifOutcomeDict fi.exif)).isSome := by
  have h1 : process_single_photo h3fn fi [] force =
      (⟨Action.created, processBody h3fn fi (Photo.new fi.relative_path) force⟩,
        [processBody h3fn fi (Photo.new fi.relative_path) force]) := by
    unfold process_single_photo dbSave dbFind
    simp
  rw [h1]
  exact processBody_new_h3 h3fn fi fi.relative_path force

/-- Claim C7, counterexample: a parseable numeric altitude tag is NOT
committed when the longitude tag is unparseable — altitude extraction is
nested inside the both-coordinates branch, so it is not independent of
longitude; with the same altitude tag and a parseable longitude it is
committed. -/
theorem c7_counterexample :
    (let bad : Photo := { source_file := "a.jpg",
                          exif_meta := some [("GPSInfo", ExVal.num 1),
                                             ("GPSLatitude", ExVal.num 10),
                                             ("GPSLongitude", ExVal.other),
                                             ("GPSAltitude", ExVal.num 5)] }
     let good : Photo := { source_file := "a.jpg",
                           exif_meta := some [("GPSInfo", ExVal.num 1),
                                              ("GPSLatitude", ExVal.num 10),
                                              ("GPSLongitude", ExVal.num 20),
                                              ("GPSAltitude", ExVal.num 5)] }
     (extract_gps_coordinates bad).gps_altitude = none ∧
     (extract_gps_coordinates bad).gps_latitude = none ∧
     (extract_gps_coordinates good).gps_altitude = some 5) := by
  decide

/-- Claim C7 as amended: latitude and longitude are each parsed by the same
pure per-value normalizer, but the pair is committed to the record only
when both parse; when the pair does not parse nothing is committed (a lone
successful coordinate is discarded silently and altitude is left
untouched); a numeric altitude is committed only within the
both-coordinates branch. -/
theorem c7_gps_commit_policy (p : Photo) :
    (extract_gps_coordinates p).gps_latitude =
      (match gps_parsed_pair p.exif_meta with
       | some q => some q.1
       | none => p.gps_latitude) ∧
    (extract_gps_coordinates p).gps_longitude =
      (match gps_parsed_pair p.exif_meta with
       | some q => some q.2
       | none => p.gps_longitude) ∧
    (extract_gps_coordinates p).gps_altitude =
      (match gps_parsed_pair p.exif_meta with
       | none => p.gps_altitude
       | some _ =>
           match (p.exif_meta.getD []).lookup "GPSAltitude" with
           | some (ExVal.num a) => some a
           | _ => p.gps_altitude) := by
  obtain ⟨h1, h2⟩ := egc_gps p
  refine ⟨h1, h2, ?_⟩
  rw [extract_gps_eq]
  (repeat' split) <;> simp_all

end TrackMe
